import Mathlib

/-!
Verification development for the `monitoring_docker` repository.

This file gives a shallow embedding, in Lean 4, of the parts of the code
relevant to the frozen claims:

* the Docker reconciliation pass
  (`main/management/commands/sync_docker.py`, `Command.handle` inner loop,
  and the equivalent `SyncDockerDataView.post` in `main/views.py`);
* the container stats computation
  (`main/services/docker_service.py`, `DockerService.get_container_stats`);
* the error-log extractor
  (`main/services/error_parser.py`, `parse_logs_and_save_errors`);
* the streaming tick post-processing
  (`main/consumers.py`, `DockerMetricsConsumer.stream` and its inner
  `to_series`).

Conventions: Python dict access `d[k]` on a possibly-missing key is embedded
as an `Except String` lookup on an `Option` field (a `none` field means the
key is absent and the access raises `KeyError`); `d.get(k, dflt)` is embedded
as `Option.getD`.  Python floats are embedded as exact rationals `ℚ`; the
claims under study concern formula structure, signs and exact zeros, which
the rational model shares with the float code.  Wall-clock timestamps are
outside the model (they are opaque payload fields never inspected by the
code under study).
-/

/-! ## Reconciliation pass (sync_docker.py / views.py)

`ContainerData` is one element of `containers_data` as returned by
`DockerService.get_all_containers`: the raw unit descriptor consumed by the
sync loop.  Field names follow the source dict keys. JSON-valued fields
(`ports`, `networks`, `labels`) and timestamps are opaque to the sync logic,
so they are embedded as `String` / `Int` scalars. -/

structure ContainerData where
  container_id : String
  name : String
  image : String
  image_id : Option String
  status : String
  state : String
  restart_count : Int
  ports : String
  networks : String
  ip_address : Option String
  created : Int
  started_at : Option Int
  finished_at : Option Int
  labels : String
deriving DecidableEq, Repr

/-- One persisted `DockerContainer` row under a fixed host (scope).  The
`command` field exists on the model but is not among the
`update_or_create` defaults, so the sync pass never writes it; it witnesses
that updates overwrite only the mutable attribute set. -/
structure DockerContainer where
  container_id : String
  name : String
  image : String
  image_id : Option String
  status : String
  state : String
  restart_count : Int
  ports : String
  networks : String
  ip_address : Option String
  created : Int
  started_at : Option Int
  finished_at : Option Int
  labels : String
  command : Option String
deriving DecidableEq, Repr

/-- The `defaults={...}` payload of `DockerContainer.objects.update_or_create`:
overwrite every mutable attribute of an existing row from the live
descriptor, keeping the key (`container_id`) and the fields not listed in
`defaults` (here `command`). -/
def applyDefaults (r : DockerContainer) (c : ContainerData) : DockerContainer :=
  { r with
    name := c.name
    image := c.image
    image_id := c.image_id
    status := c.status
    state := c.state
    restart_count := c.restart_count
    ports := c.ports
    networks := c.networks
    ip_address := c.ip_address
    created := c.created
    started_at := c.started_at
    finished_at := c.finished_at
    labels := c.labels }

/-- The create branch of `update_or_create`: a fresh row keyed by the live
descriptor's id, mutable attributes from the descriptor, unlisted fields at
their model defaults (`command` is nullable, default NULL). -/
def newContainer (c : ContainerData) : DockerContainer :=
  { container_id := c.container_id
    name := c.name
    image := c.image
    image_id := c.image_id
    status := c.status
    state := c.state
    restart_count := c.restart_count
    ports := c.ports
    networks := c.networks
    ip_address := c.ip_address
    created := c.created
    started_at := c.started_at
    finished_at := c.finished_at
    labels := c.labels
    command := none }

/-- The ids of the persisted rows, in row order. -/
def dbIds (db : List DockerContainer) : List String :=
  db.map (·.container_id)

/-- The effect of the update branch on one row: the row matching the key is
overwritten with the defaults, every other row is untouched. -/
def updOne (c : ContainerData) (r : DockerContainer) : DockerContainer :=
  if r.container_id = c.container_id then applyDefaults r c else r

/-- `DockerContainer.objects.update_or_create(host=host, container_id=...,
defaults={...})` under one fixed host: if a row with the id exists it is
overwritten with the defaults (`created = False`), otherwise a new row is
inserted (`created = True`). -/
def upsert (db : List DockerContainer) (c : ContainerData) :
    List DockerContainer × Bool :=
  if c.container_id ∈ dbIds db then
    (db.map (updOne c), false)
  else
    (db ++ [newContainer c], true)

/-- The `for container_data in containers_data` loop of `Command.handle`
(and of `SyncDockerDataView.post`): upsert each live descriptor in order,
tallying the per-iteration `created` flag printed by the command and the
`synced_count += 1` counter.  Returns
(db after the loop, number of creates, number of updates, synced count). -/
def syncLoop (db : List DockerContainer) :
    List ContainerData → List DockerContainer × Nat × Nat × Nat
  | [] => (db, 0, 0, 0)
  | c :: L =>
    let step := upsert db c
    let rest := syncLoop step.1 L
    (rest.1,
     (if step.2 then 1 else 0) + rest.2.1,
     (if step.2 then 0 else 1) + rest.2.2.1,
     1 + rest.2.2.2)

/-- Result of one reconciliation pass for one host, as observable from the
source: the surviving rows, the tallies of the per-row `created` flag, the
reported `synced_count`, and the pruned rows with the reported
`removed_count`. -/
structure PassResult where
  db : List DockerContainer
  createdCount : Nat
  updatedCount : Nat
  syncedCount : Nat
  removedList : List DockerContainer
  removedCount : Nat
deriving DecidableEq, Repr

/-- What the pass reports upward: `SyncDockerDataView.post` returns
`{'synced': {'containers': synced_containers, 'removed': removed_count}}`,
and `Command.handle` prints the same two totals (`Синхронизировано` /
`Удалено`).  Created and updated are not reported separately. -/
structure SyncReport where
  containers : Nat
  removed : Nat
deriving DecidableEq, Repr

/-- One full reconciliation pass for one host: the upsert loop over the live
snapshot, then the prune
`DockerContainer.objects.filter(host=host).exclude(container_id__in=docker_container_ids)`
followed by `removed.delete()`, with `removed_count` taken before deletion. -/
def syncPass (db : List DockerContainer) (L : List ContainerData) : PassResult :=
  let loopRes := syncLoop db L
  let ids : List String := L.map (·.container_id)
  let removed := loopRes.1.filter (fun r => ! decide (r.container_id ∈ ids))
  { db := loopRes.1.filter (fun r => decide (r.container_id ∈ ids))
    createdCount := loopRes.2.1
    updatedCount := loopRes.2.2.1
    syncedCount := loopRes.2.2.2
    removedList := removed
    removedCount := removed.length }

/-- The counts the pass reports (views.py response / command summary). -/
def reportOf (p : PassResult) : SyncReport :=
  { containers := p.syncedCount, removed := p.removedCount }

/-! ### Helper notions for the reconciliation proofs -/

/-- The last descriptor in `L` carrying the given external identifier, if
any.  After the upsert loop, a persisted row holds the attributes of the
last live descriptor with its id (later upserts overwrite earlier ones). -/
def lookupLast (L : List ContainerData) (i : String) : Option ContainerData :=
  match L with
  | [] => none
  | c :: L =>
    match lookupLast L i with
    | some c => some c
    | none => if c.container_id = i then some c else none

/-- The net effect of the upsert loop on a row that is present throughout:
overwrite with the last matching descriptor, or leave alone. -/
def updateF (L : List ContainerData) (r : DockerContainer) : DockerContainer :=
  match lookupLast L r.container_id with
  | some c => applyDefaults r c
  | none => r

theorem applyDefaults_container_id (r : DockerContainer) (c : ContainerData) :
    (applyDefaults r c).container_id = r.container_id := rfl

theorem applyDefaults_applyDefaults (r : DockerContainer) (c c₂ : ContainerData) :
    applyDefaults (applyDefaults r c) c₂ = applyDefaults r c₂ := rfl

theorem updOne_container_id (c : ContainerData) (r : DockerContainer) :
    (updOne c r).container_id = r.container_id := by
  unfold updOne; split <;> rfl

theorem dbIds_map_updOne (db : List DockerContainer) (c : ContainerData) :
    dbIds (db.map (updOne c)) = dbIds db := by
  simp only [dbIds, List.map_map]
  exact List.map_congr_left (fun r _ => updOne_container_id c r)

theorem mem_dbIds_upsert (db : List DockerContainer) (c : ContainerData)
    (i : String) :
    i ∈ dbIds (upsert db c).1 ↔ i ∈ dbIds db ∨ i = c.container_id := by
  unfold upsert
  split
  · next hmem =>
    simp only [dbIds_map_updOne]
    constructor
    · exact Or.inl
    · rintro (h | rfl)
      · exact h
      · exact hmem
  · simp [dbIds, newContainer]

theorem mem_dbIds_syncLoop (L : List ContainerData) :
    ∀ (db : List DockerContainer) (i : String),
      i ∈ dbIds (syncLoop db L).1 ↔
        i ∈ dbIds db ∨ i ∈ L.map (·.container_id) := by
  induction L with
  | nil => intro db i; simp [syncLoop]
  | cons c L ih =>
    intro db i
    simp only [syncLoop]
    rw [ih (upsert db c).1 i, mem_dbIds_upsert]
    simp only [List.map_cons, List.mem_cons]
    tauto

theorem lookupLast_container_id (L : List ContainerData) (i : String)
    (c : ContainerData) (h : lookupLast L i = some c) :
    c.container_id = i := by
  induction L with
  | nil => simp [lookupLast] at h
  | cons c₀ L ih =>
    unfold lookupLast at h
    revert h
    split
    · next heq => intro h; cases h; exact ih heq
    · split
      · next hid => intro h; cases h; exact hid
      · intro h; cases h

theorem lookupLast_of_mem_ids (L : List ContainerData) (i : String)
    (h : i ∈ L.map (·.container_id)) :
    ∃ c, lookupLast L i = some c := by
  induction L with
  | nil => simp at h
  | cons c₀ L ih =>
    unfold lookupLast
    rcases hL : lookupLast L i with _ | c
    · simp only [List.map_cons, List.mem_cons] at h
      rcases h with h | h
      · exact ⟨c₀, by simp [h.symm]⟩
      · rcases ih h with ⟨c, hc⟩
        rw [hc] at hL
        cases hL
    · exact ⟨c, rfl⟩


theorem lookupLast_cons (c₀ : ContainerData) (L : List ContainerData)
    (i : String) :
    lookupLast (c₀ :: L) i =
      match lookupLast L i with
      | some c => some c
      | none => if c₀.container_id = i then some c₀ else none := rfl

/-- A row of the upserted table whose id differs from the upserted key was
already in the table. -/
theorem mem_upsert_ne (db : List DockerContainer) (c₀ : ContainerData)
    (r : DockerContainer) (hmem : r ∈ (upsert db c₀).1)
    (hne : r.container_id ≠ c₀.container_id) : r ∈ db := by
  unfold upsert at hmem
  revert hmem
  split
  · intro hmem
    rcases List.mem_map.mp hmem with ⟨r₀, hr₀, hupd⟩
    unfold updOne at hupd
    revert hupd
    split
    · next h₀ =>
      intro hupd
      rw [← hupd, applyDefaults_container_id] at hne
      exact absurd h₀ hne
    · intro hupd; exact hupd ▸ hr₀
  · intro hmem
    rcases List.mem_append.mp hmem with h | h
    · exact h
    · simp only [List.mem_singleton] at h
      exact absurd (h ▸ rfl : r.container_id = c₀.container_id) hne

/-- A row of the upserted table that carries the upserted key already holds
the key's defaults: overwriting it again with the same descriptor is a
no-op. -/
theorem mem_upsert_eq (db : List DockerContainer) (c₀ : ContainerData)
    (r : DockerContainer) (hmem : r ∈ (upsert db c₀).1)
    (heq : r.container_id = c₀.container_id) : applyDefaults r c₀ = r := by
  unfold upsert at hmem
  revert hmem
  split
  · intro hmem
    rcases List.mem_map.mp hmem with ⟨r₀, hr₀, hupd⟩
    unfold updOne at hupd
    revert hupd
    split
    · intro hupd
      rw [← hupd, applyDefaults_applyDefaults]
    · next h₀ =>
      intro hupd
      exact absurd (hupd ▸ heq) h₀
  · next hnotin =>
    intro hmem
    rcases List.mem_append.mp hmem with h | h
    · exact absurd (heq ▸ List.mem_map.mpr ⟨r, h, rfl⟩) hnotin
    · simp only [List.mem_singleton] at h
      rw [h]; rfl

/-- A row whose id is not carried by any descriptor of `L` survives the
upsert loop untouched; a row that does carry a live id ends the loop
holding the attributes of the last matching descriptor. -/
theorem mem_syncLoop (L : List ContainerData) :
    ∀ (db : List DockerContainer) (r : DockerContainer),
      r ∈ (syncLoop db L).1 →
        (lookupLast L r.container_id = none → r ∈ db) ∧
        (∀ c, lookupLast L r.container_id = some c → applyDefaults r c = r) := by
  induction L with
  | nil =>
    intro db r hr
    refine ⟨fun _ => hr, fun c hc => ?_⟩
    simp [lookupLast] at hc
  | cons c₀ L ih =>
    intro db r hr
    simp only [syncLoop] at hr
    have ihr := ih (upsert db c₀).1 r hr
    rcases hL : lookupLast L r.container_id with _ | c₁
    · have hup : r ∈ (upsert db c₀).1 := ihr.1 hL
      constructor
      · intro hnone
        rw [lookupLast_cons, hL] at hnone
        simp only at hnone
        have hne : c₀.container_id ≠ r.container_id := by
          intro h; rw [if_pos h] at hnone; cases hnone
        exact mem_upsert_ne db c₀ r hup (fun h => hne h.symm)
      · intro c hc
        rw [lookupLast_cons, hL] at hc
        simp only at hc
        by_cases hid : c₀.container_id = r.container_id
        · rw [if_pos hid] at hc
          cases hc
          exact mem_upsert_eq db c₀ r hup hid.symm
        · rw [if_neg hid] at hc
          cases hc
    · constructor
      · intro hnone
        rw [lookupLast_cons, hL] at hnone
        cases hnone
      · intro c hc
        rw [lookupLast_cons, hL] at hc
        simp only at hc
        cases hc
        exact ihr.2 c₁ hL

/-- Overwriting rows keyed inside `S` does not change which rows fall
outside `S`: the prune set is insensitive to the update branch. -/
theorem filter_map_updOne (S : List String) (c : ContainerData)
    (hc : c.container_id ∈ S) (db : List DockerContainer) :
    (db.map (updOne c)).filter (fun r => ! decide (r.container_id ∈ S)) =
      db.filter (fun r => ! decide (r.container_id ∈ S)) := by
  induction db with
  | nil => rfl
  | cons r db ih =>
    simp only [List.map_cons, List.filter_cons]
    by_cases hid : r.container_id = c.container_id
    · have h1 : (updOne c r).container_id ∈ S := by
        rw [updOne_container_id, hid]; exact hc
      have h2 : r.container_id ∈ S := by rw [hid]; exact hc
      simp [h1, h2, ih]
    · have hupd : updOne c r = r := by unfold updOne; rw [if_neg hid]
      rw [hupd, ih]

/-- The rows falling outside a superset `S` of the live ids are the same
before and after the whole upsert loop. -/
theorem prune_syncLoop (L : List ContainerData) (S : List String) :
    ∀ db : List DockerContainer, (∀ c ∈ L, c.container_id ∈ S) →
      (syncLoop db L).1.filter (fun r => ! decide (r.container_id ∈ S)) =
        db.filter (fun r => ! decide (r.container_id ∈ S)) := by
  induction L with
  | nil => intro db _; rfl
  | cons c L ih =>
    intro db hS
    have hc : c.container_id ∈ S := hS c (List.mem_cons_self _ _)
    simp only [syncLoop]
    rw [ih (upsert db c).1 (fun c₂ h => hS c₂ (List.mem_cons_of_mem _ h))]
    unfold upsert
    split
    · exact filter_map_updOne S c hc db
    · have hnil : [newContainer c].filter
          (fun r => ! decide (r.container_id ∈ S)) = [] := by
        simp [List.filter_cons, newContainer, hc]
      rw [List.filter_append, hnil, List.append_nil]

/-- One step of the net-effect function: processing `c₀` first and then the
rest of the snapshot is the same as folding `c₀`'s overwrite into the row
up front. -/
theorem updateF_cons (c₀ : ContainerData) (L : List ContainerData)
    (r : DockerContainer) :
    updateF (c₀ :: L) r = updateF L (updOne c₀ r) := by
  unfold updateF
  rw [lookupLast_cons]
  have hid2 : (updOne c₀ r).container_id = r.container_id :=
    updOne_container_id _ _
  rw [hid2]
  rcases hL : lookupLast L r.container_id with _ | c₁
  · simp only
    by_cases hid : c₀.container_id = r.container_id
    · rw [if_pos hid]
      unfold updOne
      rw [if_pos hid.symm]
    · rw [if_neg hid]
      unfold updOne
      rw [if_neg (fun h => hid h.symm)]
  · simp only
    unfold updOne
    split
    · rw [applyDefaults_applyDefaults]
    · rfl

/-- When every live id is already persisted, the upsert loop only updates:
it maps the net-effect function over the table and reports zero creates. -/
theorem syncLoop_all_present (L : List ContainerData) :
    ∀ db : List DockerContainer, (∀ c ∈ L, c.container_id ∈ dbIds db) →
      (syncLoop db L).1 = db.map (updateF L) ∧ (syncLoop db L).2.1 = 0 := by
  induction L with
  | nil =>
    intro db _
    refine ⟨?_, rfl⟩
    have h : ∀ r ∈ db, r = updateF [] r := fun r _ => rfl
    calc (syncLoop db []).1 = db := rfl
      _ = db.map (updateF []) := by
          conv_lhs => rw [← List.map_id db]
          exact List.map_congr_left (fun r hr => (h r hr).symm ▸ rfl)
  | cons c₀ L ih =>
    intro db hS
    have hc : c₀.container_id ∈ dbIds db := hS c₀ (List.mem_cons_self _ _)
    have hstep : upsert db c₀ = (db.map (updOne c₀), false) := by
      unfold upsert; rw [if_pos hc]
    have hS₂ : ∀ c ∈ L, c.container_id ∈ dbIds (db.map (updOne c₀)) := by
      intro c h
      rw [dbIds_map_updOne]
      exact hS c (List.mem_cons_of_mem _ h)
    have ihh := ih (db.map (updOne c₀)) hS₂
    constructor
    · show (syncLoop (upsert db c₀).1 L).1 = _
      rw [hstep]
      simp only
      rw [ihh.1, List.map_map]
      exact List.map_congr_left (fun r _ => (updateF_cons c₀ L r).symm)
    · show (if (upsert db c₀).2 then 1 else 0) + (syncLoop (upsert db c₀).1 L).2.1 = 0
      rw [hstep]
      simp only [if_neg Bool.false_ne_true]
      rw [ihh.2]

/-- C2: one reconciliation pass leaves the table exactly at the live
snapshot, so a second pass over the same snapshot changes nothing: same
persisted rows, zero rows created, zero rows removed. -/
theorem sync_idempotent (db : List DockerContainer) (L : List ContainerData) :
    (syncPass (syncPass db L).db L).db = (syncPass db L).db ∧
    (syncPass (syncPass db L).db L).createdCount = 0 ∧
    (syncPass (syncPass db L).db L).removedCount = 0 := by
  have hkept : (syncPass db L).db =
      (syncLoop db L).1.filter
        (fun r => decide (r.container_id ∈ L.map (·.container_id))) := rfl
  have hA : ∀ r ∈ (syncPass db L).db,
      r ∈ (syncLoop db L).1 ∧ r.container_id ∈ L.map (·.container_id) := by
    intro r hr
    rw [hkept] at hr
    have h := List.mem_filter.mp hr
    exact ⟨h.1, of_decide_eq_true h.2⟩
  have hB : ∀ c ∈ L, c.container_id ∈ dbIds (syncPass db L).db := by
    intro c hcL
    have h₁ : c.container_id ∈ dbIds (syncLoop db L).1 :=
      (mem_dbIds_syncLoop L db c.container_id).mpr
        (Or.inr (List.mem_map.mpr ⟨c, hcL, rfl⟩))
    rcases List.mem_map.mp h₁ with ⟨r, hr, hrid⟩
    have hrk : r ∈ (syncPass db L).db := by
      rw [hkept]
      exact List.mem_filter.mpr
        ⟨hr, decide_eq_true (hrid ▸ List.mem_map.mpr ⟨c, hcL, rfl⟩)⟩
    exact List.mem_map.mpr ⟨r, hrk, hrid⟩
  have hC : ∀ r ∈ (syncPass db L).db, updateF L r = r := by
    intro r hr
    rcases lookupLast_of_mem_ids L r.container_id (hA r hr).2 with ⟨c, hc⟩
    have := (mem_syncLoop L db r (hA r hr).1).2 c hc
    unfold updateF
    rw [hc]
    exact this
  have hAP := syncLoop_all_present L (syncPass db L).db hB
  have hmap : (syncLoop (syncPass db L).db L).1 = (syncPass db L).db := by
    rw [hAP.1]
    calc (syncPass db L).db.map (updateF L)
        = (syncPass db L).db.map id := List.map_congr_left (fun r hr => hC r hr)
      _ = (syncPass db L).db := List.map_id _
  refine ⟨?_, ?_, ?_⟩
  · show (syncLoop (syncPass db L).db L).1.filter
        (fun r => decide (r.container_id ∈ L.map (·.container_id))) = _
    rw [hmap]
    exact List.filter_eq_self.mpr
      (fun r hr => decide_eq_true (hA r hr).2)
  · exact hAP.2
  · show ((syncLoop (syncPass db L).db L).1.filter
        (fun r => ! decide (r.container_id ∈ L.map (·.container_id)))).length = 0
    rw [hmap]
    have : (syncPass db L).db.filter
        (fun r => ! decide (r.container_id ∈ L.map (·.container_id))) = [] := by
      rw [List.filter_eq_nil_iff]
      intro r hr
      intro hcon
      rw [Bool.not_eq_true', decide_eq_false_iff_not] at hcon
      exact hcon (hA r hr).2
    rw [this]
    rfl

/-- C3: the prune step of a reconciliation pass deletes exactly the
persisted rows whose external identifier is not among the ids of the live
snapshot used by the same pass; consequently every unit present in the
live enumeration still has a row after the pass. -/
theorem prune_deletes_exactly_stale (db : List DockerContainer)
    (L : List ContainerData) :
    (syncPass db L).removedList =
      db.filter (fun r => ! decide (r.container_id ∈ L.map (·.container_id))) ∧
    ∀ c ∈ L, c.container_id ∈ dbIds (syncPass db L).db := by
  constructor
  · exact prune_syncLoop L (L.map (·.container_id)) db
      (fun c h => List.mem_map.mpr ⟨c, h, rfl⟩)
  · intro c hcL
    have h₁ : c.container_id ∈ dbIds (syncLoop db L).1 :=
      (mem_dbIds_syncLoop L db c.container_id).mpr
        (Or.inr (List.mem_map.mpr ⟨c, hcL, rfl⟩))
    rcases List.mem_map.mp h₁ with ⟨r, hr, hrid⟩
    have hrk : r ∈ (syncPass db L).db :=
      List.mem_filter.mpr
        ⟨hr, decide_eq_true (hrid ▸ List.mem_map.mpr ⟨c, hcL, rfl⟩)⟩
    exact List.mem_map.mpr ⟨r, hrk, hrid⟩

/-! ### Concrete reconciliation example: P = {a,b,c}, L = {b,c,d} -/

/-- A live descriptor with the given id and name and fixed innocuous
remaining attributes. -/
def exData (i nm : String) : ContainerData :=
  { container_id := i, name := nm, image := "img", image_id := none,
    status := "running", state := "running", restart_count := 0,
    ports := "ports", networks := "nets", ip_address := none,
    created := 0, started_at := none, finished_at := none, labels := "lbl" }

/-- Persisted set P: rows a, b, c (b and c with stale names). -/
def dbExample : List DockerContainer :=
  [newContainer (exData "ida" "a"),
   newContainer (exData "idb" "b-old"),
   newContainer (exData "idc" "c-old")]

/-- Live snapshot L: b, c (fresh attributes) and d (new). -/
def liveExample : List ContainerData :=
  [exData "idb" "b-new", exData "idc" "c-new", exData "idd" "d"]

/-- C1 (amended): on P = {a,b,c}, L = {b,c,d} one pass creates d,
overwrites the mutable attributes of b and c, deletes a; internally this is
one create and two updates, but the pass reports only the merged synced
count together with the removed count, (3, 1). -/
theorem sync_diff_example :
    (syncPass dbExample liveExample).db =
      [newContainer (exData "idb" "b-new"), newContainer (exData "idc" "c-new"),
       newContainer (exData "idd" "d")] ∧
    (syncPass dbExample liveExample).createdCount = 1 ∧
    (syncPass dbExample liveExample).updatedCount = 2 ∧
    (syncPass dbExample liveExample).removedList =
      [newContainer (exData "ida" "a")] ∧
    reportOf (syncPass dbExample liveExample) =
      { containers := 3, removed := 1 } := by decide

/-- C1 counterexample: the pass does not report (createdCount,
updatedCount, removedCount) = (1, 2, 1) as separate values.  The created
and updated tallies exist (1 and 2), but the reported record is the pair
(containers = 3, removed = 1): the first reported count is the merged
synced total, not the created count 1 the claim names. -/
theorem sync_report_not_separate :
    (syncPass dbExample liveExample).createdCount = 1 ∧
    (syncPass dbExample liveExample).updatedCount = 2 ∧
    reportOf (syncPass dbExample liveExample) =
      { containers := 3, removed := 1 } ∧
    (reportOf (syncPass dbExample liveExample)).containers ≠
      (syncPass dbExample liveExample).createdCount := by decide

/-- Witness for C3 at the concrete example: the pruned rows are exactly the
stale row a, and live unit b keeps a row. -/
theorem prune_deletes_exactly_stale_witness :
    (syncPass dbExample liveExample).removedList =
      dbExample.filter
        (fun r => ! decide (r.container_id ∈ liveExample.map (·.container_id))) ∧
    "idb" ∈ dbIds (syncPass dbExample liveExample).db := by
  have h := prune_deletes_exactly_stale dbExample liveExample
  exact ⟨h.1, h.2 (exData "idb" "b-new") (by decide)⟩

/-! ## Container stats computation (docker_service.py)

`DockerService.get_container_stats` reads a raw stats document returned by
the Docker Engine API.  Fields the code reads with plain indexing
(`stats['cpu_stats']`, `precpu_stats['system_cpu_usage']`, ...) are
embedded as `Option` fields read through `dictGet`, which fails like a
`KeyError` when the field is absent; fields read with `.get(key, default)`
are embedded with `Option.getD`.  The two `except` clauses of the source
catch only `NotFound` and `DockerException` (client-call failures), not
`KeyError`, so a `dictGet` failure models an exception escaping to the
caller.  Numeric counters are the non-negative integers of the wire
format; percentages are exact rationals. -/

structure RawCpuUsage where
  total_usage : Option Nat
  percpu_usage : Option (List Nat)
deriving DecidableEq, Repr

structure RawCpuStats where
  cpu_usage : Option RawCpuUsage
  system_cpu_usage : Option Nat
  online_cpus : Option Nat
deriving DecidableEq, Repr

structure RawMemoryStats where
  usage : Option Nat
  limit : Option Nat
deriving DecidableEq, Repr

structure RawNetworkData where
  rx_bytes : Option Nat
  tx_bytes : Option Nat
  rx_packets : Option Nat
  tx_packets : Option Nat
deriving DecidableEq, Repr

structure RawIoStat where
  op : Option String
  value : Option Nat
deriving DecidableEq, Repr

structure RawBlkioStats where
  io_service_bytes_recursive : Option (List RawIoStat)
deriving DecidableEq, Repr

/-- The raw stats document.  `networks` holds the dict values in order
(the code only iterates `networks.values()`). -/
structure RawStats where
  cpu_stats : Option RawCpuStats
  precpu_stats : Option RawCpuStats
  memory_stats : Option RawMemoryStats
  networks : Option (List RawNetworkData)
  blkio_stats : Option RawBlkioStats
deriving DecidableEq, Repr

/-- Python `d[key]`: a `KeyError` escapes when the key is absent. -/
def dictGet (o : Option α) (key : String) : Except String α :=
  match o with
  | some v => Except.ok v
  | none => Except.error ("KeyError " ++ key)

/-- Lines 348-350 of docker_service.py: the active cpu count is
`cpu_stats.get('online_cpus', len(cpu_stats['cpu_usage'].get('percpu_usage', [1])))`. -/
def cpuCountOf (online_cpus : Option Nat) (percpu : Option (List Nat)) : Nat :=
  match online_cpus with
  | some n => n
  | none => (percpu.getD [1]).length

/-- Lines 346-350: `cpu_percent = 0.0`, overwritten with
`(cpu_delta / system_delta) * cpu_count * 100.0` only when
`system_delta > 0 and cpu_delta > 0`. -/
def cpuPercentCalc (cpu_delta system_delta : Int) (cpu_count : Nat) : ℚ :=
  if system_delta > 0 ∧ cpu_delta > 0 then
    ((cpu_delta : ℚ) / (system_delta : ℚ)) * (cpu_count : ℚ) * 100
  else 0

/-- Line 355: `(memory_usage / memory_limit) * 100.0 if memory_limit > 0
else 0.0`. -/
def memoryPercentCalc (memory_usage memory_limit : Nat) : ℚ :=
  if memory_limit > 0 then
    ((memory_usage : ℚ) / (memory_limit : ℚ)) * 100
  else 0

/-- Python `round(x, 2)` on the exact rational model (the float tie-break
at half-cent boundaries is immaterial to the claims, which never sit on a
tie). -/
def roundTo2 (q : ℚ) : ℚ := ((round (q * 100) : ℤ) : ℚ) / 100

/-- Lines 358-367: byte/packet totals summed over all network
interfaces, each field defaulting to 0 when absent. -/
def sumRxBytes (nets : List RawNetworkData) : Nat :=
  nets.foldl (fun a n => a + n.rx_bytes.getD 0) 0

def sumTxBytes (nets : List RawNetworkData) : Nat :=
  nets.foldl (fun a n => a + n.tx_bytes.getD 0) 0

def sumRxPackets (nets : List RawNetworkData) : Nat :=
  nets.foldl (fun a n => a + n.rx_packets.getD 0) 0

def sumTxPackets (nets : List RawNetworkData) : Nat :=
  nets.foldl (fun a n => a + n.tx_packets.getD 0) 0

/-- Lines 369-377: read/write byte totals over
`blkio_stats.get('io_service_bytes_recursive', [])`; each entry is read
with `io_stat['op']` and `io_stat['value']`, so an absent field raises. -/
def blkioSums : List RawIoStat → Except String (Nat × Nat)
  | [] => Except.ok (0, 0)
  | io :: rest => do
    let op ← dictGet io.op "op"
    let v ← dictGet io.value "value"
    let acc ← blkioSums rest
    if op = "Read" then Except.ok (acc.1 + v, acc.2)
    else if op = "Write" then Except.ok (acc.1, acc.2 + v)
    else Except.ok acc

/-- The record returned by `get_container_stats` (the wall-clock
`timestamp` field is outside the model). -/
structure StatsRecord where
  cpu_usage_percent : ℚ
  cpu_system_usage : Nat
  cpu_total_usage : Nat
  memory_usage : Nat
  memory_limit : Nat
  memory_percent : ℚ
  network_rx_bytes : Nat
  network_tx_bytes : Nat
  network_rx_packets : Nat
  network_tx_packets : Nat
  block_read_bytes : Nat
  block_write_bytes : Nat
deriving DecidableEq, Repr

/-- Lines 332-393 of `DockerService.get_container_stats`, after the stats
document has been fetched: parse the counters, compute the deltas and
percentages, sum network and block totals, and build the returned dict.
An `Except.error` is a `KeyError` escaping the function (the source only
catches `NotFound` and `DockerException`). -/
def get_container_stats (stats : RawStats) : Except String StatsRecord := do
  let cpu_stats ← dictGet stats.cpu_stats "cpu_stats"
  let precpu_stats ← dictGet stats.precpu_stats "precpu_stats"
  let memory_stats ← dictGet stats.memory_stats "memory_stats"
  let networks := stats.networks.getD []
  let blkio_stats := stats.blkio_stats.getD { io_service_bytes_recursive := none }
  let cur_usage ← dictGet cpu_stats.cpu_usage "cpu_usage"
  let cur_total ← dictGet cur_usage.total_usage "total_usage"
  let prev_usage ← dictGet precpu_stats.cpu_usage "cpu_usage"
  let prev_total ← dictGet prev_usage.total_usage "total_usage"
  let cpu_delta : Int := (cur_total : Int) - (prev_total : Int)
  let cur_sys ← dictGet cpu_stats.system_cpu_usage "system_cpu_usage"
  let prev_sys ← dictGet precpu_stats.system_cpu_usage "system_cpu_usage"
  let system_delta : Int := (cur_sys : Int) - (prev_sys : Int)
  let cpu_percent :=
    cpuPercentCalc cpu_delta system_delta
      (cpuCountOf cpu_stats.online_cpus cur_usage.percpu_usage)
  let memory_usage := memory_stats.usage.getD 0
  let memory_limit := memory_stats.limit.getD 1
  let memory_percent := memoryPercentCalc memory_usage memory_limit
  let blk ← blkioSums (blkio_stats.io_service_bytes_recursive.getD [])
  Except.ok
    { cpu_usage_percent := roundTo2 cpu_percent
      cpu_system_usage := cur_sys
      cpu_total_usage := cur_total
      memory_usage := memory_usage
      memory_limit := memory_limit
      memory_percent := roundTo2 memory_percent
      network_rx_bytes := sumRxBytes networks
      network_tx_bytes := sumTxBytes networks
      network_rx_packets := sumRxPackets networks
      network_tx_packets := sumTxPackets networks
      block_read_bytes := blk.1
      block_write_bytes := blk.2 }

theorem bindE_ok (v : α) (f : α → Except String β) :
    (Except.ok v >>= f) = f v := rfl

theorem bindE_error (e : String) (f : α → Except String β) :
    ((Except.error e : Except String α) >>= f) = Except.error e := rfl

/-- C4: the computed cpu percent equals
`(cpu_delta / system_delta) * cpu_count * 100` exactly when
`system_delta > 0` and `cpu_delta > 0`, and is `0.0` otherwise; it is
non-negative whenever `system_delta > 0`, and `system_delta = 0` forces
`0.0` regardless of `cpu_delta`. -/
theorem cpu_percent_spec (cpu_delta system_delta : Int) (cpu_count : Nat) :
    (system_delta > 0 ∧ cpu_delta > 0 →
      cpuPercentCalc cpu_delta system_delta cpu_count =
        ((cpu_delta : ℚ) / (system_delta : ℚ)) * (cpu_count : ℚ) * 100) ∧
    (¬(system_delta > 0 ∧ cpu_delta > 0) →
      cpuPercentCalc cpu_delta system_delta cpu_count = 0) ∧
    (system_delta > 0 →
      0 ≤ cpuPercentCalc cpu_delta system_delta cpu_count) ∧
    (system_delta = 0 →
      cpuPercentCalc cpu_delta system_delta cpu_count = 0) := by
  refine ⟨fun h => ?_, fun h => ?_, fun _ => ?_, fun h => ?_⟩
  · unfold cpuPercentCalc; rw [if_pos h]
  · unfold cpuPercentCalc; rw [if_neg h]
  · unfold cpuPercentCalc
    split
    · next hc =>
      have h1 : (0 : ℚ) ≤ (cpu_delta : ℚ) := by exact_mod_cast le_of_lt hc.2
      have h2 : (0 : ℚ) ≤ (system_delta : ℚ) := by exact_mod_cast le_of_lt hc.1
      exact mul_nonneg (mul_nonneg (div_nonneg h1 h2) (Nat.cast_nonneg _))
        (by norm_num)
    · exact le_refl 0
  · unfold cpuPercentCalc
    rw [if_neg (fun hc => absurd (h ▸ hc.1) (lt_irrefl 0))]

/-- Witness for C4 at concrete counters: deltas (2, 4) with 2 cpus give
`2/4 * 2 * 100`, are non-negative, and a zero system delta gives 0. -/
theorem cpu_percent_spec_witness :
    cpuPercentCalc 2 4 2 = ((2 : ℚ) / (4 : ℚ)) * ((2 : Nat) : ℚ) * 100 ∧
    0 ≤ cpuPercentCalc 2 4 2 ∧
    cpuPercentCalc 5 0 3 = 0 :=
  ⟨(cpu_percent_spec 2 4 2).1 (by decide),
   (cpu_percent_spec 2 4 2).2.2.1 (by decide),
   (cpu_percent_spec 5 0 3).2.2.2 rfl⟩

/-- C6: memory percent equals `(memory_usage / memory_limit) * 100` when
the limit is positive and is exactly `0.0` for a zero limit — the guard
means the division-by-zero branch is never taken. -/
theorem memory_percent_spec (memory_usage memory_limit : Nat) :
    (memory_limit > 0 →
      memoryPercentCalc memory_usage memory_limit =
        ((memory_usage : ℚ) / (memory_limit : ℚ)) * 100) ∧
    (memory_limit = 0 → memoryPercentCalc memory_usage memory_limit = 0) := by
  constructor
  · intro h; unfold memoryPercentCalc; rw [if_pos h]
  · intro h
    unfold memoryPercentCalc
    rw [if_neg (fun hc => absurd (h ▸ hc) (lt_irrefl 0))]

/-- Witness for C6 at concrete values: usage 5 with limit 2 gives
`5/2 * 100`; limit 0 gives 0. -/
theorem memory_percent_spec_witness :
    memoryPercentCalc 5 2 = (((5 : Nat) : ℚ) / ((2 : Nat) : ℚ)) * 100 ∧
    memoryPercentCalc 7 0 = 0 :=
  ⟨(memory_percent_spec 5 2).1 (by decide),
   (memory_percent_spec 7 0).2 rfl⟩

/-- A first-sample stats document as Docker reports it: previous-tick
counters present but zeroed, current counters positive. -/
def zeroPrevStats : RawStats :=
  { cpu_stats := some
      { cpu_usage := some { total_usage := some 1, percpu_usage := none },
        system_cpu_usage := some 2, online_cpus := some 1 },
    precpu_stats := some
      { cpu_usage := some { total_usage := some 0, percpu_usage := none },
        system_cpu_usage := some 0, online_cpus := none },
    memory_stats := some { usage := some 0, limit := some 0 },
    networks := none,
    blkio_stats := none }

/-- C5 counterexample: with zeroed previous-tick counters and positive
current counters the emitted record's cpu percent is `(1/2)*1*100 = 50`,
not zero — the first sample is not a zero-valued percent record. -/
theorem first_sample_percent_not_zero :
    get_container_stats zeroPrevStats = Except.ok
      { cpu_usage_percent := 50, cpu_system_usage := 2, cpu_total_usage := 1,
        memory_usage := 0, memory_limit := 0, memory_percent := 0,
        network_rx_bytes := 0, network_tx_bytes := 0, network_rx_packets := 0,
        network_tx_packets := 0, block_read_bytes := 0,
        block_write_bytes := 0 } ∧
    (50 : ℚ) ≠ 0 := by
  constructor
  · unfold get_container_stats zeroPrevStats
    simp only [dictGet, bindE_ok, blkioSums, Option.getD]
    norm_num [cpuPercentCalc, cpuCountOf, memoryPercentCalc, roundTo2,
              round_ofNat, round_zero,
              sumRxBytes, sumTxBytes, sumRxPackets, sumTxPackets]
  · norm_num

/-- C5 (amended): for a first sample whose previous-tick counters are
present but zeroed (and whose current-tick fields are present), the
computation returns a record without failing and without dividing by zero
(the division is guarded by `system_delta > 0 and cpu_delta > 0`), but the
cpu percent equals the guarded ratio of the *current* cumulative counters —
zero only when the current system or cpu total is not positive, not
unconditionally; and when the previous-tick `system_cpu_usage` field is
absent instead of zeroed, the plain indexing raises a `KeyError` that the
function does not catch. -/
theorem first_sample_zeroed_guarded
    (ct st : Nat) (cupp pp : Option (List Nat)) (oc oc2 : Option Nat)
    (mu ml : Option Nat) (nets : Option (List RawNetworkData)) :
    get_container_stats
      { cpu_stats := some
          { cpu_usage := some { total_usage := some ct, percpu_usage := cupp },
            system_cpu_usage := some st, online_cpus := oc },
        precpu_stats := some
          { cpu_usage := some { total_usage := some 0, percpu_usage := pp },
            system_cpu_usage := some 0, online_cpus := oc2 },
        memory_stats := some { usage := mu, limit := ml },
        networks := nets, blkio_stats := none } =
      Except.ok
        { cpu_usage_percent :=
            roundTo2 (cpuPercentCalc (ct : Int) (st : Int) (cpuCountOf oc cupp)),
          cpu_system_usage := st, cpu_total_usage := ct,
          memory_usage := mu.getD 0, memory_limit := ml.getD 1,
          memory_percent := roundTo2 (memoryPercentCalc (mu.getD 0) (ml.getD 1)),
          network_rx_bytes := sumRxBytes (nets.getD []),
          network_tx_bytes := sumTxBytes (nets.getD []),
          network_rx_packets := sumRxPackets (nets.getD []),
          network_tx_packets := sumTxPackets (nets.getD []),
          block_read_bytes := 0, block_write_bytes := 0 } ∧
    (¬(0 < st ∧ 0 < ct) →
      cpuPercentCalc (ct : Int) (st : Int) (cpuCountOf oc cupp) = 0) ∧
    (0 < st ∧ 0 < ct →
      cpuPercentCalc (ct : Int) (st : Int) (cpuCountOf oc cupp) =
        ((ct : ℚ) / (st : ℚ)) * ((cpuCountOf oc cupp : ℕ) : ℚ) * 100) ∧
    get_container_stats
      { cpu_stats := some
          { cpu_usage := some { total_usage := some ct, percpu_usage := cupp },
            system_cpu_usage := some st, online_cpus := oc },
        precpu_stats := some
          { cpu_usage := some { total_usage := some 0, percpu_usage := pp },
            system_cpu_usage := none, online_cpus := oc2 },
        memory_stats := some { usage := mu, limit := ml },
        networks := nets, blkio_stats := none } =
      Except.error ("KeyError " ++ "system_cpu_usage") := by
  refine ⟨?_, ?_, ?_, ?_⟩
  · unfold get_container_stats
    simp only [dictGet, bindE_ok, blkioSums, Option.getD]
    norm_num
  · intro h
    unfold cpuPercentCalc
    rw [if_neg]
    intro hc
    exact h ⟨Int.natCast_pos.mp hc.1, Int.natCast_pos.mp hc.2⟩
  · intro h
    unfold cpuPercentCalc
    rw [if_pos ⟨Int.natCast_pos.mpr h.1, Int.natCast_pos.mpr h.2⟩]
    push_cast
    ring
  · unfold get_container_stats
    simp only [dictGet, bindE_ok, bindE_error, blkioSums, Option.getD]

theorem roundTo2_natMul (u : Nat) : roundTo2 ((u : ℚ) * 100) = (u : ℚ) * 100 := by
  unfold roundTo2
  rw [show (u : ℚ) * 100 * 100 = ((u * 10000 : ℕ) : ℚ) by push_cast; ring,
    round_natCast]
  push_cast; ring

theorem memPercent_one (u : Nat) :
    roundTo2 (memoryPercentCalc u 1) = (u : ℚ) * 100 := by
  have h : memoryPercentCalc u 1 = (u : ℚ) * 100 := by
    unfold memoryPercentCalc
    rw [if_pos Nat.one_pos]
    norm_num
  rw [h, roundTo2_natMul]

/-- C10: when the raw memory stats omit the `limit` field entirely, the
computation substitutes the default 1, so any record it returns carries
`memory_limit = 1` and `memory_percent = memory_usage * 100` — unlike the
explicit-zero-limit case, which yields `memory_percent = 0`. -/
theorem memory_limit_default (s : RawStats) (ms : RawMemoryStats) (u : Nat)
    (r : StatsRecord)
    (hms : s.memory_stats = some ms) (hlim : ms.limit = none)
    (hus : ms.usage = some u)
    (hok : get_container_stats s = Except.ok r) :
    r.memory_limit = 1 ∧ r.memory_percent = (u : ℚ) * 100 := by
  unfold get_container_stats at hok
  rw [hms] at hok
  rcases hcs : s.cpu_stats with _ | cs
  · rw [hcs] at hok
    simp only [dictGet, bindE_error] at hok
    cases hok
  rw [hcs] at hok
  rcases hpcs : s.precpu_stats with _ | pcs
  · rw [hpcs] at hok
    simp only [dictGet, bindE_ok, bindE_error] at hok
    cases hok
  rw [hpcs] at hok
  simp only [dictGet, bindE_ok] at hok
  rcases hcu : cs.cpu_usage with _ | cu
  · rw [hcu] at hok
    simp only [bindE_error] at hok
    cases hok
  rw [hcu] at hok
  simp only [bindE_ok] at hok
  rcases hct : cu.total_usage with _ | ctv
  · rw [hct] at hok
    simp only [bindE_error] at hok
    cases hok
  rw [hct] at hok
  simp only [bindE_ok] at hok
  rcases hpu : pcs.cpu_usage with _ | pu
  · rw [hpu] at hok
    simp only [bindE_error] at hok
    cases hok
  rw [hpu] at hok
  simp only [bindE_ok] at hok
  rcases hpt : pu.total_usage with _ | ptv
  · rw [hpt] at hok
    simp only [bindE_error] at hok
    cases hok
  rw [hpt] at hok
  simp only [bindE_ok] at hok
  rcases hcsys : cs.system_cpu_usage with _ | csv
  · rw [hcsys] at hok
    simp only [bindE_error] at hok
    cases hok
  rw [hcsys] at hok
  simp only [bindE_ok] at hok
  rcases hpsys : pcs.system_cpu_usage with _ | psv
  · rw [hpsys] at hok
    simp only [bindE_error] at hok
    cases hok
  rw [hpsys] at hok
  simp only [bindE_ok] at hok
  rcases hbs : s.blkio_stats with _ | bs
  · rw [hbs] at hok
    simp only [Option.getD, blkioSums, bindE_ok] at hok
    rw [Except.ok.injEq] at hok
    subst hok
    refine ⟨?_, ?_⟩
    · simp [hlim]
    · simp only [hlim, hus, Option.getD]
      exact memPercent_one u
  rw [hbs] at hok
  simp only [Option.getD] at hok
  rcases hio : bs.io_service_bytes_recursive with _ | ios
  · rw [hio] at hok
    simp only [Option.getD, blkioSums, bindE_ok] at hok
    rw [Except.ok.injEq] at hok
    subst hok
    refine ⟨?_, ?_⟩
    · simp [hlim]
    · simp only [hlim, hus, Option.getD]
      exact memPercent_one u
  rw [hio] at hok
  simp only [Option.getD] at hok
  rcases hres : blkioSums ios with e | pr
  · rw [hres] at hok
    simp only [bindE_error] at hok
    cases hok
  rw [hres] at hok
  simp only [bindE_ok] at hok
  rw [Except.ok.injEq] at hok
  subst hok
  refine ⟨?_, ?_⟩
  · simp [hlim]
  · simp only [hlim, hus, Option.getD]
    exact memPercent_one u

/-- Witness for C5 (amended) at concrete counters: zero current counters
give percent 0; current totals (1, 2) with one cpu give the nonzero ratio
formula. -/
theorem first_sample_zeroed_guarded_witness :
    cpuPercentCalc ((0 : Nat) : Int) ((0 : Nat) : Int) (cpuCountOf none none) = 0 ∧
    cpuPercentCalc ((1 : Nat) : Int) ((2 : Nat) : Int) (cpuCountOf (some 1) none) =
      (((1 : Nat) : ℚ) / ((2 : Nat) : ℚ)) * ((cpuCountOf (some 1) none : ℕ) : ℚ) * 100 :=
  ⟨(first_sample_zeroed_guarded 0 0 none none none none none none none).2.1
      (by decide),
   (first_sample_zeroed_guarded 1 2 none none (some 1) none none none
      none).2.2.1 ⟨by decide, by decide⟩⟩

/-- A stats document whose memory dict has `usage` 7 and no `limit` key. -/
def limitlessStats : RawStats :=
  { cpu_stats := some
      { cpu_usage := some { total_usage := some 0, percpu_usage := none },
        system_cpu_usage := some 0, online_cpus := none },
    precpu_stats := some
      { cpu_usage := some { total_usage := some 0, percpu_usage := none },
        system_cpu_usage := some 0, online_cpus := none },
    memory_stats := some { usage := some 7, limit := none },
    networks := none,
    blkio_stats := none }

/-- The record `get_container_stats` returns for `limitlessStats`. -/
def limitlessRecord : StatsRecord :=
  { cpu_usage_percent := 0, cpu_system_usage := 0, cpu_total_usage := 0,
    memory_usage := 7, memory_limit := 1, memory_percent := 700,
    network_rx_bytes := 0, network_tx_bytes := 0, network_rx_packets := 0,
    network_tx_packets := 0, block_read_bytes := 0, block_write_bytes := 0 }

/-- Witness for C10: on `limitlessStats` the returned record has
`memory_limit = 1` and `memory_percent = 700 = 7 * 100`. -/
theorem memory_limit_default_witness :
    limitlessRecord.memory_limit = 1 ∧
    limitlessRecord.memory_percent = ((7 : ℕ) : ℚ) * 100 := by
  have hok : get_container_stats limitlessStats = Except.ok limitlessRecord := by
    unfold get_container_stats limitlessStats limitlessRecord
    simp only [dictGet, bindE_ok, blkioSums, Option.getD]
    norm_num [cpuPercentCalc, cpuCountOf, memoryPercentCalc, roundTo2,
              round_zero, round_ofNat, sumRxBytes, sumTxBytes, sumRxPackets,
              sumTxPackets]
  exact memory_limit_default limitlessStats { usage := some 7, limit := none }
    7 limitlessRecord rfl rfl rfl hok

/-! ## Error-log extractor (error_parser.py)

`parse_logs_and_save_errors` scans log text line by line; a keyword line
opens a capture block, a blank line closes it, end of input flushes a
still-open block; every flushed block becomes one `ContainerError` row.

Text primitives (`str.splitlines`, `in`, `str.strip`, slicing, `join`) are
embedded as structural recursions over `List Char` (the character data of
a `String`), so that concrete runs reduce inside the kernel.  `splitlines`
is modelled for inputs whose only line terminator is `'\n'` — the one
terminator occurring in the log inputs under study. -/

def ERROR_KEYWORDS : List String :=
  ["ERROR", "Error", "Exception", "Traceback", "Stacktrace"]

/-- Is `pat` a prefix of `s`? -/
def isPrefixList : List Char → List Char → Bool
  | [], _ => true
  | _ :: _, [] => false
  | a :: pat, b :: s => a == b && isPrefixList pat s

/-- Python `pat in s` (substring containment). -/
def containsSub (pat : List Char) : List Char → Bool
  | [] => pat.isEmpty
  | s@(_ :: rest) => isPrefixList pat s || containsSub pat rest

/-- Line 49: `any(k in line for k in ERROR_KEYWORDS)`. -/
def hasKw (line : List Char) : Bool :=
  ERROR_KEYWORDS.any (fun k => containsSub k.data line)

/-- Split a character list on one separator character; always returns at
least one part. -/
def splitChar (c : Char) : List Char → List (List Char)
  | [] => [[]]
  | a :: rest =>
    let r := splitChar c rest
    if a == c then [] :: r
    else
      match r with
      | [] => [[a]]
      | h :: t => (a :: h) :: t

/-- Python `'\n'.join(parts)`. -/
def joinNl : List (List Char) → List Char
  | [] => []
  | [l] => l
  | l :: ls => l ++ '\n' :: joinNl ls

/-- Python `str.strip()` (for the blank-line test of line 58). -/
def pyStrip (s : List Char) : List Char :=
  ((s.dropWhile Char.isWhitespace).reverse.dropWhile Char.isWhitespace).reverse

/-- Python `str.splitlines()` for `'\n'`-terminated text: no empty final
line for a trailing newline, and the empty string has no lines. -/
def pySplitlines (s : List Char) : List (List Char) :=
  if s.isEmpty then []
  else if s.getLast? == some '\n' then (splitChar '\n' s).dropLast
  else splitChar '\n' s

/-- One persisted `ContainerError` row (the wall-clock `timestamp` column
is outside the model). -/
structure ContainerError where
  source_type : String
  container_id : String
  container_name : String
  error_message : String
  short_message : String
  level : String
  service_name : String
deriving DecidableEq, Repr

/-- The parser's running state: rows saved so far, the `errors_found`
counter, the capture buffer, and the `capturing` flag. -/
structure ParseState where
  errors : List ContainerError
  errors_found : Nat
  buf : List (List Char)
  capturing : Bool
deriving DecidableEq, Repr

/-- The row built by `flush()` from a nonempty buffer: full message =
`'\n'.join(buf)`, short message = `full.split('\n', 1)[0][:1024]`. -/
def flushRecord (source_type container_id container_name level
    service_name : String) (buf : List (List Char)) : ContainerError :=
  let full := joinNl buf
  { source_type := source_type
    container_id := container_id
    container_name := container_name
    error_message := String.mk full
    short_message := String.mk (((splitChar '\n' full).headD []).take 1024)
    level := level
    service_name := service_name }

/-- Lines 29-46, `flush()`: an empty buffer is a no-op; otherwise save one
row, bump `errors_found` and clear the buffer. -/
def flushBuf (source_type container_id container_name level
    service_name : String) (st : ParseState) : ParseState :=
  if st.buf = [] then st
  else
    { st with
      errors := st.errors ++
        [flushRecord source_type container_id container_name level
          service_name st.buf]
      errors_found := st.errors_found + 1
      buf := [] }

/-- Lines 48-62, the body of `for line in lines`: a keyword line flushes
any open block and starts capturing with this line; while capturing, a
blank line flushes and stops, any other line is appended; otherwise the
line is ignored. -/
def parseStep (source_type container_id container_name level
    service_name : String) (st : ParseState) (line : List Char) : ParseState :=
  if hasKw line then
    let st := flushBuf source_type container_id container_name level
      service_name st
    { st with capturing := true, buf := st.buf ++ [line] }
  else if st.capturing then
    if pyStrip line = [] then
      let st := flushBuf source_type container_id container_name level
        service_name st
      { st with capturing := false }
    else { st with buf := st.buf ++ [line] }
  else st

/-- The state after the `for line in lines` loop, from the empty initial
state. -/
def parseFold (source_type container_id container_name level
    service_name : String) (logs : String) : ParseState :=
  (pySplitlines logs.data).foldl
    (parseStep source_type container_id container_name level service_name)
    { errors := [], errors_found := 0, buf := [], capturing := false }

/-- Lines 9-68, `parse_logs_and_save_errors`: empty input saves nothing;
otherwise run the loop over the lines and flush a still-open block at end
of input.  Returns the saved rows together with the returned
`errors_found` count (`service_name or ''` maps an absent name to `''`). -/
def parse_logs_and_save_errors (source_type container_id
    container_name : String) (logs : String) (service_name : Option String)
    (default_level : String) : List ContainerError × Nat :=
  if logs.data.isEmpty then ([], 0)
  else
    let sn := service_name.getD ""
    let st := parseFold source_type container_id container_name
      default_level sn logs
    let st2 :=
      if st.capturing then
        flushBuf source_type container_id container_name default_level sn st
      else st
    (st2.errors, st2.errors_found)

theorem parseStep_skip (p1 p2 p3 p4 p5 : String) (st : ParseState)
    (line : List Char) (hkw : hasKw line = false)
    (hcap : st.capturing = false) :
    parseStep p1 p2 p3 p4 p5 st line = st := by
  simp [parseStep, hkw, hcap]

theorem parseFold_skip (p1 p2 p3 p4 p5 : String) :
    ∀ (lines : List (List Char)) (st : ParseState),
      (∀ l ∈ lines, hasKw l = false) → st.capturing = false →
      lines.foldl (parseStep p1 p2 p3 p4 p5) st = st := by
  intro lines
  induction lines with
  | nil => intro st _ _; rfl
  | cons l ls ih =>
    intro st h hcap
    simp only [List.foldl_cons]
    rw [parseStep_skip p1 p2 p3 p4 p5 st l (h l (List.mem_cons_self _ _)) hcap]
    exact ih st (fun x hx => h x (List.mem_cons_of_mem _ hx)) hcap

/-- The capture buffer is nonempty whenever the parser is capturing. -/
theorem parseStep_inv (p1 p2 p3 p4 p5 : String) (st : ParseState)
    (line : List Char) (h : st.capturing = true → st.buf ≠ []) :
    (parseStep p1 p2 p3 p4 p5 st line).capturing = true →
    (parseStep p1 p2 p3 p4 p5 st line).buf ≠ [] := by
  unfold parseStep
  split
  · intro _
    simp
  · split
    · split
      · intro hcon
        simp at hcon
      · intro _
        simp
    · exact h

theorem parseFold_inv (p1 p2 p3 p4 p5 : String) :
    ∀ (lines : List (List Char)) (st : ParseState),
      (st.capturing = true → st.buf ≠ []) →
      ((lines.foldl (parseStep p1 p2 p3 p4 p5) st).capturing = true →
        (lines.foldl (parseStep p1 p2 p3 p4 p5) st).buf ≠ []) := by
  intro lines
  induction lines with
  | nil => intro st h; exact h
  | cons l ls ih =>
    intro st h
    simp only [List.foldl_cons]
    exact ih _ (parseStep_inv p1 p2 p3 p4 p5 st l h)

/-- C7: on `"INFO ok\nERROR boom\nline2\n\nINFO next"` the extractor saves
exactly one record with summary `"ERROR boom"` and full text
`"ERROR boom\nline2"`; an input none of whose lines matches a keyword
yields zero records; and an input that ends while still capturing flushes
the open block as one final record. -/
theorem parser_boundary_spec :
    (parse_logs_and_save_errors "docker" "cid" "cname"
        "INFO ok\nERROR boom\nline2\n\nINFO next" none "Error" =
      ([{ source_type := "docker", container_id := "cid",
          container_name := "cname",
          error_message := "ERROR boom\nline2",
          short_message := "ERROR boom", level := "Error",
          service_name := "" }], 1)) ∧
    (∀ (p1 p2 p3 : String) (logs : String) (sn : Option String)
        (lvl : String),
      (∀ l ∈ pySplitlines logs.data, hasKw l = false) →
        parse_logs_and_save_errors p1 p2 p3 logs sn lvl = ([], 0)) ∧
    (∀ (p1 p2 p3 : String) (logs : String) (sn : Option String)
        (lvl : String),
      (parseFold p1 p2 p3 lvl (sn.getD "") logs).capturing = true →
        parse_logs_and_save_errors p1 p2 p3 logs sn lvl =
          ((parseFold p1 p2 p3 lvl (sn.getD "") logs).errors ++
            [flushRecord p1 p2 p3 lvl (sn.getD "")
              (parseFold p1 p2 p3 lvl (sn.getD "") logs).buf],
           (parseFold p1 p2 p3 lvl (sn.getD "") logs).errors_found + 1)) := by
  refine ⟨by decide, ?_, ?_⟩
  · intro p1 p2 p3 logs sn lvl h
    unfold parse_logs_and_save_errors
    split
    · rfl
    · have hfold : parseFold p1 p2 p3 lvl (sn.getD "") logs =
          { errors := [], errors_found := 0, buf := [], capturing := false } :=
        parseFold_skip p1 p2 p3 lvl (sn.getD "") (pySplitlines logs.data) _
          h rfl
      simp [hfold]
  · intro p1 p2 p3 logs sn lvl h
    have hne : ¬ logs.data.isEmpty = true := by
      intro he
      have hl : pySplitlines logs.data = [] := by
        unfold pySplitlines; rw [if_pos he]
      unfold parseFold at h
      rw [hl] at h
      simp at h
    have hbuf : (parseFold p1 p2 p3 lvl (sn.getD "") logs).buf ≠ [] :=
      parseFold_inv p1 p2 p3 lvl (sn.getD "") (pySplitlines logs.data) _
        (fun hc => absurd hc (by decide)) h
    unfold parse_logs_and_save_errors
    rw [if_neg hne]
    simp only
    rw [if_pos h]
    unfold flushBuf
    rw [if_neg hbuf]

/-- Witness for C7 at concrete inputs: a keyword-free log saves nothing,
and a log ending inside a capture block flushes it as one record. -/
theorem parser_boundary_spec_witness :
    parse_logs_and_save_errors "docker" "cid" "cname" "INFO a\nINFO b"
        none "Error" = ([], 0) ∧
    parse_logs_and_save_errors "docker" "cid" "cname" "ERROR boom\nline2"
        none "Error" =
      ((parseFold "docker" "cid" "cname" "Error" "" "ERROR boom\nline2").errors
          ++ [flushRecord "docker" "cid" "cname" "Error" ""
            (parseFold "docker" "cid" "cname" "Error" ""
              "ERROR boom\nline2").buf],
       (parseFold "docker" "cid" "cname" "Error" ""
          "ERROR boom\nline2").errors_found + 1) :=
  ⟨parser_boundary_spec.2.1 "docker" "cid" "cname" "INFO a\nINFO b" none
      "Error" (by decide),
   parser_boundary_spec.2.2 "docker" "cid" "cname" "ERROR boom\nline2" none
      "Error" (by decide)⟩

/-! ## Streaming tick post-processing (consumers.py)

One tick of `DockerMetricsConsumer.stream` issues the four Prometheus
queries through `asyncio.gather(..., return_exceptions=True)` and then
post-processes the four settled results purely: `to_series` per dimension,
then one merged payload.  The embedding covers that post-processing; a
gather slot is either an exception object or a response whose `.json()`
parses or raises. -/

/-- A JSON scalar in a Prometheus `value` array as seen by
`float(value[1])`: `null` raises `TypeError`; `num q` is a value `float`
accepts (a number or numeric string); `nonnum` is anything `float`
rejects. -/
inductive JVal where
  | null
  | num (q : ℚ)
  | nonnum
deriving DecidableEq, Repr

/-- `float(...)` on a `value` array element, `none` meaning it raises. -/
def floatOf : JVal → Option ℚ
  | JVal.num q => some q
  | _ => none

structure PromMetric where
  name : Option String
deriving DecidableEq, Repr

structure PromItem where
  metric : Option PromMetric
  value : Option (List JVal)
deriving DecidableEq, Repr

structure PromData where
  result : Option (List PromItem)
deriving DecidableEq, Repr

structure PromBody where
  status : Option String
  data : Option PromData
deriving DecidableEq, Repr

/-- One slot of the gathered responses: an exception, or a response whose
`.json()` gives `some body` (or `none` when parsing raises). -/
inductive PromResp where
  | exn (msg : String)
  | resp (json : Option PromBody)
deriving DecidableEq, Repr

/-- One emitted series point `{name, value}`. -/
structure Point where
  name : String
  value : ℚ
deriving DecidableEq, Repr

/-- Python `s.endswith(pat)`. -/
def endsWithList (pat s : List Char) : Bool :=
  isPrefixList pat.reverse s.reverse

/-- Lines 103-115 of consumers.py, the display-name normalization: keep
the final `/`-segment, strip a trailing `.scope`, strip a `docker-` prefix
and truncate the remaining hash to 12 characters. -/
def normalizeNameL (n : List Char) : List Char :=
  let n := if containsSub ("/".data) n then (splitChar '/' n).getLastD [] else n
  let n := if endsWithList (".scope".data) n then n.take (n.length - 6) else n
  if isPrefixList ("docker-".data) n then
    let n := n.drop 7
    if n.length > 12 then n.take 12 else n
  else n

def normalizeName (raw : String) : String :=
  String.mk (normalizeNameL raw.data)

/-- Lines 117-118: `value_float = float(value[1]) if value and
len(value) > 1 else 0.0`; `none` is the raising path that `continue`s the
series. -/
def valueFloat (value : List JVal) : Option ℚ :=
  if ¬value.isEmpty ∧ value.length > 1 then
    floatOf ((value.drop 1).headD JVal.null)
  else some 0

/-- Lines 96-129, the body of the `for m in data` loop: defaulted `metric`
and `value` lookups, name normalization, value parsing with
`ValueError`/`TypeError`/`IndexError` skipping the series, and the
exactly-zero filter `if value_float == 0: continue`. -/
def entryPoint (m : PromItem) : Option Point :=
  let metric := m.metric.getD { name := none }
  let value := m.value.getD [JVal.null, JVal.num 0]
  let nm := normalizeName (metric.name.getD "unknown")
  match valueFloat value with
  | none => none
  | some v => if v = 0 then none else some { name := nm, value := v }

/-- Lines 82-136, `to_series`: an exception slot, an unparsable body, or a
non-success status each yield `[]`; otherwise the result entries are
processed one by one. -/
def to_series (resp : PromResp) : List Point :=
  match resp with
  | PromResp.exn _ => []
  | PromResp.resp none => []
  | PromResp.resp (some body) =>
    if body.status ≠ some "success" then []
    else ((body.data.getD { result := none }).result.getD []).filterMap
      entryPoint

/-- The merged payload of one tick (lines 138-144). -/
structure Payload where
  ts : Nat
  cpu : List Point
  memory : List Point
  netrx : List Point
  nettx : List Point
deriving DecidableEq, Repr

/-- Lines 138-161: the payload always gets built and sent, each dimension
from its own response alone. -/
def buildPayload (ts : Nat) (cpu mem rx tx : PromResp) : Payload :=
  { ts := ts, cpu := to_series cpu, memory := to_series mem,
    netrx := to_series rx, nettx := to_series tx }

/-- A failed or malformed sub-query: the gather slot holds an exception,
or `.json()` raises, or Prometheus did not answer `status = success`. -/
def failedResp (r : PromResp) : Prop :=
  (∃ e, r = PromResp.exn e) ∨ r = PromResp.resp none ∨
    ∃ b, r = PromResp.resp (some b) ∧ b.status ≠ some "success"

theorem to_series_failed (r : PromResp) (h : failedResp r) :
    to_series r = [] := by
  rcases h with ⟨e, rfl⟩ | rfl | ⟨b, rfl, hb⟩
  · rfl
  · rfl
  · simp [to_series, hb]

/-- C8: within one tick the four dimensions are computed independently —
the payload is always built, each dimension from its own response — and a
failed or malformed sub-query contributes an empty list for exactly its
own dimension. -/
theorem stream_isolation (ts : Nat) (cpu mem rx tx : PromResp) :
    buildPayload ts cpu mem rx tx =
      { ts := ts, cpu := to_series cpu, memory := to_series mem,
        netrx := to_series rx, nettx := to_series tx } ∧
    (failedResp cpu → to_series cpu = []) ∧
    (failedResp mem → to_series mem = []) ∧
    (failedResp rx → to_series rx = []) ∧
    (failedResp tx → to_series tx = []) :=
  ⟨rfl, to_series_failed cpu, to_series_failed mem, to_series_failed rx,
   to_series_failed tx⟩

/-- One well-formed series entry with value 2. -/
def streamOkItem : PromItem :=
  { metric := some { name := some "svc" },
    value := some [JVal.num 1700, JVal.num 2] }

/-- A successful response carrying one series with value 2. -/
def streamOkBody : PromBody :=
  { status := some "success", data := some { result := some [streamOkItem] } }

/-- Witness for C8: with the receive sub-query an exception and the other
three successful, the tick's payload has `netrx = []` while the other
dimensions are their own series. -/
theorem stream_isolation_witness :
    (buildPayload 5 (PromResp.resp (some streamOkBody))
        (PromResp.resp (some streamOkBody)) (PromResp.exn "boom")
        (PromResp.resp (some streamOkBody))).netrx = [] ∧
    (buildPayload 5 (PromResp.resp (some streamOkBody))
        (PromResp.resp (some streamOkBody)) (PromResp.exn "boom")
        (PromResp.resp (some streamOkBody))).cpu =
      to_series (PromResp.resp (some streamOkBody)) := by
  have h := stream_isolation 5 (PromResp.resp (some streamOkBody))
    (PromResp.resp (some streamOkBody)) (PromResp.exn "boom")
    (PromResp.resp (some streamOkBody))
  constructor
  · rw [h.1]
    exact h.2.2.2.1 (Or.inl ⟨"boom", rfl⟩)
  · rw [h.1]

/-- C9: the display-name normalization maps
`/system.slice/docker-ab12cd34ef56gh78.scope` to `ab12cd34ef56`, leaves
`my-service` unchanged, and any series whose parsed numeric value is
exactly zero is discarded from the dimension's list. -/
theorem display_name_normalization :
    normalizeName "/system.slice/docker-ab12cd34ef56gh78.scope" =
      "ab12cd34ef56" ∧
    normalizeName "my-service" = "my-service" ∧
    (∀ m : PromItem,
      valueFloat (m.value.getD [JVal.null, JVal.num 0]) = some 0 →
        entryPoint m = none) := by
  refine ⟨by decide, by decide, ?_⟩
  intro m h
  simp [entryPoint, h]

/-- A series entry reporting the exact value 0. -/
def zeroValueItem : PromItem :=
  { metric := some { name := some "svc" },
    value := some [JVal.num 1700, JVal.num 0] }

/-- Witness for C9: a series reporting the value 0 is dropped. -/
theorem display_name_normalization_witness :
    entryPoint zeroValueItem = none :=
  display_name_normalization.2.2 zeroValueItem (by decide)
